import Mathlib

/-!
Verification of the scan-orchestration logic of the `Measurement` class
(`examples/measurement/laser_scan_pharos.py`).

The embedding is shallow: each relevant method of the class is translated
into a pure Lean function over an explicit state.  The DAQ dictionary
`self.daqs` is modelled as a total map `String → DaqBinding` together with
the list of registered DAQ names (dictionary keys); devices are records
carrying the property fields the methods inspect; driver calls performed
by the sequencing methods (`do_line_scan`, `stop_scan`,
`stop_continuous_scans`) are recorded as an explicit event trace.
Python quantities (`Q_`) are modelled as rationals; Python's `int()` /
numpy's integer coercion of a float truncates toward zero, which is
modelled by `pytrunc`.
-/

set_option autoImplicit false

/-- A device record, carrying exactly the property fields the
`Measurement` methods inspect: `properties['name']`,
`properties['connection']['device']` and the optional
`properties['model']` marker. -/
structure Device where
  name : String
  connection_device : String
  model : Option String
deriving DecidableEq, Repr

/-- One entry of `self.daqs`: the `monitor` channel list and the
`monitor_task` slot (absent before the DAQ is first armed).  The `input`
and `output` lists are never read by the verified methods and are
omitted. -/
structure DaqBinding where
  monitor : List Device
  monitor_task : Option Nat
deriving DecidableEq, Repr

/-- Python `int()` applied to a (real-valued) quotient truncates toward
zero; numpy's coercion of a float `num` in `np.linspace` behaves the same
way.  Truncation toward zero of the reduced fraction `num/den` is
`Int.tdiv`; on nonnegative arguments this agrees with `Int.floor`. -/
def pytrunc (q : ℚ) : ℤ :=
  q.num.tdiv (q.den : ℤ)

/-- `setup_scan` lines 147-150: a missing `wavelength_sweeps` entry, or an
entry equal to `0`, is replaced by `1`; any other value is kept. -/
def normalize_wavelength_sweeps (sweeps : Option ℕ) : ℕ :=
  match sweeps with
  | none => 1
  | some s => if s = 0 then 1 else s

/-- `setup_scan` lines 167-169:
`num_points = int((stop_wavelength - start_wavelength) / interval_trigger)
* wavelength_sweeps`, computed after the sweep-count normalization. -/
def setup_scan_num_points (start_wavelength stop_wavelength interval_trigger : ℚ)
    (sweeps : Option ℕ) : ℤ :=
  pytrunc ((stop_wavelength - start_wavelength) / interval_trigger) *
    (normalize_wavelength_sweeps sweeps : ℤ)

/-- `setup_scan` line 178: `num_points_dev = int(((stop - start) / step).to(''))`. -/
def setup_scan_num_points_dev (start stop step : ℚ) : ℤ :=
  pytrunc ((stop - start) / step)

/-- `np.linspace(start, stop, num, endpoint=True)` over exact rationals:
`num` evenly spaced values from `start` to `stop` inclusive.  (For `num = 0`
or `1` the division by `num - 1` is the junk value `x / 0 = 0`, giving `[]`
and `[start]` respectively, as numpy does.) -/
def linspace (start stop : ℚ) (num : ℕ) : List ℚ :=
  (List.range num).map (fun (i : ℕ) => start + (i : ℚ) * (stop - start) / ((num : ℚ) - 1))

/-- `do_scan` lines 255-262 (non-time axis): `num_points_dev =
((stop - start) / step).to('')`, then `num_points_dev += 1`; numpy then
coerces the float to an integer point count inside `np.linspace`. -/
def do_scan_num_points_dev (start stop step : ℚ) : ℕ :=
  (pytrunc ((stop - start) / step + 1)).toNat

/-- The axis values visited by `do_scan`'s outer loop
(`for value in np.linspace(start, stop, num_points_dev, endpoint=True)`). -/
def do_scan_axis_values (start stop step : ℚ) : List ℚ :=
  linspace start stop (do_scan_num_points_dev start stop step)

/-- The externally visible effect of one `set_value_to_device` call. -/
inductive SetAction where
  | analog_output_dc (daq_name dev_name : String) (value : ℚ)
  | apply_values (dev_name : String) (value : ℚ)
  | no_op
deriving DecidableEq, Repr

/-- `set_value_to_device` lines 275-292: if `'model'` is among the device
properties and the model is `'ni'`, the value goes through the owning
DAQ's `analog_output_dc`; if `'model'` is absent, through the device's own
`apply_values`; a present model different from `'ni'` falls through both
branches and performs no action. -/
def set_value_to_device (dev : Device) (value : ℚ) : SetAction :=
  match dev.model with
  | some m =>
      if m = "ni" then SetAction.analog_output_dc dev.connection_device dev.name value
      else SetAction.no_op
  | none => SetAction.apply_values dev.name value

/-- Whether a `set_value_to_device` call delivered its value through the
owning DAQ's `analog_output_dc`. -/
def delivers_via_daq : SetAction → Bool
  | SetAction.analog_output_dc _ _ _ => true
  | _ => false

/-- Whether a `set_value_to_device` call delivered its value through the
device's own `apply_values`. -/
def delivers_via_apply : SetAction → Bool
  | SetAction.apply_values _ _ => true
  | _ => false

/-- `connect_monitor_devices_to_daq` lines 118-119 (and the identical
clearing loops in `setup_scan` lines 158-159 and `setup_continuous_scans`
lines 311-312): every registered DAQ's `monitor` list is emptied.  Keys
not in `daq_names` do not exist in the Python dictionary; the total map
leaves them untouched. -/
def clear_monitors (daq_names : List String) (daqs : String → DaqBinding) :
    String → DaqBinding :=
  fun d => if d ∈ daq_names then { daqs d with monitor := [] } else daqs d

/-- One iteration of the repopulation loop
(`self.daqs[dev.properties['connection']['device']]['monitor'].append(dev)`). -/
def append_monitor (daqs : String → DaqBinding) (dev : Device) :
    String → DaqBinding :=
  fun d => if d = dev.connection_device then
      { daqs d with monitor := (daqs d).monitor ++ [dev] }
    else daqs d

/-- `connect_monitor_devices_to_daq` lines 110-123 (the same
clear-then-repopulate sequence appears inline in `setup_scan` lines
157-165 and `setup_continuous_scans` lines 310-319): clear every DAQ's
`monitor` list, then append each requested detector to the binding of the
DAQ named by its `connection.device` property. -/
def connect_monitor_devices_to_daq (daq_names : List String)
    (daqs : String → DaqBinding) (detectors : List Device) :
    String → DaqBinding :=
  detectors.foldl append_monitor (clear_monitors daq_names daqs)

/-- The DAQ-arming loop of `setup_scan` lines 193-207 (identical in
`setup_continuous_scans` lines 337-353): for each registered DAQ whose
`monitor` list is non-empty, call the driver's `analog_input_setup` and
store the returned task in the binding's `monitor_task` slot; other
bindings are untouched.  Each iteration reads and writes only its own
dictionary key, so the loop is modelled pointwise; `new_task d` is the
task handle the driver returns for DAQ `d`. -/
def arm_monitor_daqs (new_task : String → ℕ) (daq_names : List String)
    (daqs : String → DaqBinding) : String → DaqBinding :=
  fun d => if d ∈ daq_names ∧ (daqs d).monitor ≠ [] then
      { daqs d with monitor_task := some (new_task d) }
    else daqs d

/-- The DAQs on which the arming loop invokes the driver's
`analog_input_setup` (the body of the `if len(daq['monitor']) > 0` guard). -/
def armed_daq_names (daq_names : List String) (daqs : String → DaqBinding) :
    List String :=
  daq_names.filter (fun d => !(daqs d).monitor.isEmpty)

/-- The effect of one `setup_scan` / `setup_continuous_scans` call on the
`self.daqs` dictionary: clear and rebuild the monitor lists from the
requested detectors, then arm every DAQ with a non-empty monitor list. -/
def setup_scan_daqs (new_task : String → ℕ) (daq_names : List String)
    (daqs : String → DaqBinding) (detectors : List Device) :
    String → DaqBinding :=
  arm_monitor_daqs new_task daq_names
    (connect_monitor_devices_to_daq daq_names daqs detectors)

/-- `np.reshape(xs, (rows, cols))` on a flat buffer: fails (raises) unless
the length is exactly `rows * cols`, otherwise splits into `rows`
consecutive chunks of `cols` samples. -/
def np_reshape (rows cols : ℕ) (xs : List ℚ) : Option (List (List ℚ)) :=
  if xs.length = rows * cols then
    some ((List.range rows).map (fun i => (xs.drop (i * cols)).take cols))
  else none

/-- The body of `read_scans` lines 378-385 (textually identical in
`read_continuous_scans` lines 394-401) for one DAQ with a non-empty
monitor list, given the driver's `read_analog` response `(vv, dd)`:
`dd = dd[:vv * len(monitor)]`, `dd = np.reshape(dd, (len(monitor), vv))`,
then `data[dev_i.name] = dd[i, :]` for each monitored device.  `none`
models the reshape raising on a size mismatch. -/
def read_scans_daq (monitor : List Device) (vv : ℕ) (dd : List ℚ) :
    Option (List (String × List ℚ)) :=
  let dd2 := dd.take (vv * monitor.length)
  match np_reshape monitor.length vv dd2 with
  | none => none
  | some rows => some (List.zip (monitor.map Device.name) rows)

/-- A driver call recorded by the sequencing methods. -/
inductive Event where
  | digital_output (port : String) (level : Bool)
  | execute_sweep
  | poll_sweep
  | pause_sweep
  | stop_sweep
  | stop_task (t : ℕ)
  | clear_task (t : ℕ)
deriving DecidableEq, Repr

/-- The digital level of the shutter line after replaying a trace of
driver calls, starting from level `s`. -/
def shutter_after (port : String) (s : Bool) (trace : List Event) : Bool :=
  trace.foldl
    (fun lvl e =>
      match e with
      | Event.digital_output p l => if p = port then l else lvl
      | _ => lvl)
    s

/-- Outcome of each driver call made by `do_line_scan`, in source order:
whether the initial shutter-close, the shutter-open, `execute_sweep`, the
`sweep_condition` polling and the final shutter-close complete without
raising, and how many poll iterations run before `sweep_condition`
reports `'Stop'`. -/
structure LineScanEnv where
  close_before_ok : Bool
  open_ok : Bool
  execute_sweep_ok : Bool
  poll_ok : Bool
  sweep_polls : ℕ
  close_after_ok : Bool
deriving DecidableEq, Repr

/-- `do_line_scan` lines 214-236 as a trace of completed driver calls plus
a success flag: close shutter, sleep the shutter delay, open shutter,
`execute_sweep`, poll `sweep_condition` until `'Stop'`, close shutter,
`return True`.  The method installs no exception handler, so a raising
driver call ends the trace at the calls already completed and the flag is
`false` (the exception propagates to the caller). -/
def do_line_scan (env : LineScanEnv) (port : String) : List Event × Bool :=
  if env.close_before_ok then
    if env.open_ok then
      if env.execute_sweep_ok then
        if env.poll_ok then
          if env.close_after_ok then
            ([Event.digital_output port false, Event.digital_output port true,
                Event.execute_sweep] ++
              List.replicate env.sweep_polls Event.poll_sweep ++
              [Event.digital_output port false], true)
          else
            ([Event.digital_output port false, Event.digital_output port true,
                Event.execute_sweep] ++
              List.replicate env.sweep_polls Event.poll_sweep, false)
        else ([Event.digital_output port false, Event.digital_output port true,
               Event.execute_sweep], false)
      else ([Event.digital_output port false, Event.digital_output port true], false)
    else ([Event.digital_output port false], false)
  else ([], false)

/-- The DAQ loop shared verbatim by `stop_scan` lines 415-421 and
`stop_continuous_scans` lines 428-434: for every binding with a non-empty
`monitor` list, look up `daq['monitor_task']` (a `KeyError`, modelled as
`none`, if the slot was never filled) and, when the driver reports the
task not complete, `stop_task` then `clear_task` it. -/
def stop_daq_tasks (complete : ℕ → Bool) : List DaqBinding → Option (List Event)
  | [] => some []
  | b :: rest =>
    if b.monitor.isEmpty then stop_daq_tasks complete rest
    else
      match b.monitor_task with
      | none => none
      | some t =>
        match stop_daq_tasks complete rest with
        | none => none
        | some r =>
          some ((if complete t then [] else [Event.stop_task t, Event.clear_task t]) ++ r)

/-- `stop_scan` lines 409-421: `stop_laser()` (which is `pause_sweep` then
`stop_sweep`), set the shutter digital line low, then run the DAQ
stop/clear loop. -/
def stop_scan (port : String) (complete : ℕ → Bool) (bs : List DaqBinding) :
    Option (List Event) :=
  (stop_daq_tasks complete bs).map
    (fun r => [Event.pause_sweep, Event.stop_sweep,
               Event.digital_output port false] ++ r)

/-- `stop_continuous_scans` lines 423-434: `pause_sweep`, `stop_sweep`,
then the DAQ stop/clear loop (no shutter interaction). -/
def stop_continuous_scans (complete : ℕ → Bool) (bs : List DaqBinding) :
    Option (List Event) :=
  (stop_daq_tasks complete bs).map
    (fun r => [Event.pause_sweep, Event.stop_sweep] ++ r)

/-- On nonnegative rationals, Python's truncating `int()` agrees with the
mathematical floor. -/
theorem pytrunc_eq_floor {q : ℚ} (h : 0 ≤ q) : pytrunc q = ⌊q⌋ := by
  have hn : 0 ≤ q.num := Rat.num_nonneg.mpr h
  obtain ⟨m, hm⟩ := Int.eq_ofNat_of_zero_le hn
  rw [pytrunc, Rat.floor_def, hm]
  rfl

/-- Claim C4: `setup_scan` computes
`wavelength_points = floor((stop_wavelength - start_wavelength) / interval_trigger)
* max(wavelength_sweeps, 1)` for every scan specification with a positive
trigger interval and `start_wavelength ≤ stop_wavelength`. -/
theorem setup_scan_wavelength_points_spec (s t i : ℚ) (sw : Option ℕ)
    (hi : 0 < i) (hst : s ≤ t) :
    setup_scan_num_points s t i sw = ⌊(t - s) / i⌋ * (max (sw.getD 1) 1 : ℕ) := by
  have hq : 0 ≤ (t - s) / i := div_nonneg (by linarith) hi.le
  rw [setup_scan_num_points, pytrunc_eq_floor hq]
  congr 1
  cases sw with
  | none => rfl
  | some n =>
    cases n with
    | zero => rfl
    | succ k => simp [normalize_wavelength_sweeps]

/-- Witness for claim C4: the spec's end-to-end scenario,
`start_wavelength = 1540 nm`, `stop_wavelength = 1560 nm`,
`interval_trigger = 10 pm = 0.01 nm`, `wavelength_sweeps = 1`, yields
2000 wavelength points. -/
theorem setup_scan_wavelength_points_spec_witness :
    (0 : ℚ) < 1 / 100 ∧ (1540 : ℚ) ≤ 1560 ∧
    setup_scan_num_points 1540 1560 (1 / 100) (some 1) = 2000 := by
  refine ⟨by norm_num, by norm_num, ?_⟩
  rw [setup_scan_wavelength_points_spec 1540 1560 (1 / 100) (some 1)
    (by norm_num) (by norm_num)]
  norm_num

/-- Claim C5: a `wavelength_sweeps` value of 0 or absent is normalized to 1
before the geometry computation, and the normalization is idempotent: on a
parameter set that already went through it, it changes nothing. -/
theorem normalize_wavelength_sweeps_idempotent :
    normalize_wavelength_sweeps none = 1 ∧
    normalize_wavelength_sweeps (some 0) = 1 ∧
    ∀ sw : Option ℕ,
      normalize_wavelength_sweeps (some (normalize_wavelength_sweeps sw)) =
        normalize_wavelength_sweeps sw := by
  refine ⟨rfl, rfl, ?_⟩
  intro sw
  rcases sw with _ | n
  · rfl
  · rcases n with _ | k
    · rfl
    · simp [normalize_wavelength_sweeps]

/-- Claim C9 (amended): `set_value_to_device` routes through the owning
DAQ's `analog_output_dc` exactly when the device's properties carry
`model == 'ni'`, and through the device's own `apply_values` exactly when
no `model` key is present; a device whose `model` differs from `'ni'` is
routed through neither path. -/
theorem set_value_to_device_routing (dev : Device) (v : ℚ) :
    (delivers_via_daq (set_value_to_device dev v) = true ↔ dev.model = some "ni") ∧
    (delivers_via_apply (set_value_to_device dev v) = true ↔ dev.model = none) ∧
    (dev.model = some "ni" →
      set_value_to_device dev v =
        SetAction.analog_output_dc dev.connection_device dev.name v) ∧
    (dev.model = none →
      set_value_to_device dev v = SetAction.apply_values dev.name v) := by
  rcases hdev : dev.model with _ | m
  · simp [set_value_to_device, hdev, delivers_via_daq, delivers_via_apply]
  · by_cases hm : m = "ni" <;>
      simp [set_value_to_device, hdev, hm, delivers_via_daq, delivers_via_apply]

/-- Witness for claim C9 (amended): an `'ni'`-modelled device goes through
`analog_output_dc` of its DAQ, a model-less device through its own
`apply_values`. -/
theorem set_value_to_device_routing_witness :
    set_value_to_device ⟨"aom", "NI-DAQ", some "ni"⟩ 2 =
      SetAction.analog_output_dc "NI-DAQ" "aom" 2 ∧
    set_value_to_device ⟨"sample_stage", "COM1", none⟩ 3 =
      SetAction.apply_values "sample_stage" 3 :=
  ⟨(set_value_to_device_routing ⟨"aom", "NI-DAQ", some "ni"⟩ 2).2.2.1 rfl,
   (set_value_to_device_routing ⟨"sample_stage", "COM1", none⟩ 3).2.2.2 rfl⟩

/-- Counterexample for claim C9 as stated: a device whose properties carry
a `model` marker other than `'ni'` is delivered through neither
`analog_output_dc` nor `apply_values` — the value is silently dropped. -/
theorem set_value_to_device_counterexample :
    delivers_via_daq (set_value_to_device ⟨"hwp_motor", "NI-DAQ", some "thorlabs"⟩ 45) = false ∧
    delivers_via_apply (set_value_to_device ⟨"hwp_motor", "NI-DAQ", some "thorlabs"⟩ 45) = false ∧
    (Device.mk "hwp_motor" "NI-DAQ" (some "thorlabs")).model.isSome = true := by
  decide

/-- The repopulation loop appends exactly the detectors wired to each DAQ,
in request order, and never touches a binding's `monitor_task` slot. -/
theorem foldl_append_monitor_spec (detectors : List Device) :
    ∀ (m : String → DaqBinding) (d : String),
      ((detectors.foldl append_monitor m) d).monitor =
        (m d).monitor ++ detectors.filter (fun dev => dev.connection_device == d) ∧
      ((detectors.foldl append_monitor m) d).monitor_task = (m d).monitor_task := by
  induction detectors with
  | nil => intro m d; simp
  | cons dev rest ih =>
    intro m d
    rw [List.foldl_cons, List.filter_cons]
    obtain ⟨h1, h2⟩ := ih (append_monitor m dev) d
    by_cases h : dev.connection_device = d
    · rw [h1, h2]
      simp [append_monitor, h]
    · rw [h1, h2]
      simp [append_monitor, h, Ne.symm h]

/-- Claim C7: after the clear-and-repopulate monitor rebuild, each
registered DAQ's `monitor` list holds exactly the requested detectors
whose `connection.device` names that DAQ, independently of whatever any
earlier call left in the bindings (`daqs` is universally quantified, so
repeated calls never accumulate).  The coverage hypothesis `hcov` mirrors
the fact that a detector wired to an unregistered DAQ would raise a
`KeyError` instead of returning. -/
theorem connect_monitor_exact (daq_names : List String) (daqs : String → DaqBinding)
    (detectors : List Device) (d : String)
    (hd : d ∈ daq_names)
    (hcov : ∀ dev ∈ detectors, dev.connection_device ∈ daq_names) :
    ((connect_monitor_devices_to_daq daq_names daqs detectors) d).monitor =
      detectors.filter (fun dev => dev.connection_device == d) ∧
    ∀ dev : Device,
      dev ∈ ((connect_monitor_devices_to_daq daq_names daqs detectors) d).monitor ↔
        dev ∈ detectors ∧ dev.connection_device = d := by
  have _hcov := hcov
  obtain ⟨h1, -⟩ := foldl_append_monitor_spec detectors (clear_monitors daq_names daqs) d
  rw [connect_monitor_devices_to_daq, h1, clear_monitors]
  simp only [hd, if_pos]
  constructor
  · simp
  · intro dev
    simp [List.mem_filter]

/-- Witness for claim C7: two DAQs, a stale monitor entry and a stale task
left by an earlier scan, three requested detectors — `daqA`'s rebuilt
monitor list is exactly its two detectors, in order, with no accumulation
of the stale entry. -/
theorem connect_monitor_exact_witness :
    ((connect_monitor_devices_to_daq ["daqA", "daqB"]
        (fun _ => DaqBinding.mk [Device.mk "stale" "daqA" none] (some 9))
        [Device.mk "pd1" "daqA" none, Device.mk "pd2" "daqB" none,
         Device.mk "pd3" "daqA" none]) "daqA").monitor =
      [Device.mk "pd1" "daqA" none, Device.mk "pd3" "daqA" none] := by
  have h := connect_monitor_exact ["daqA", "daqB"]
    (fun _ => DaqBinding.mk [Device.mk "stale" "daqA" none] (some 9))
    [Device.mk "pd1" "daqA" none, Device.mk "pd2" "daqB" none,
     Device.mk "pd3" "daqA" none] "daqA" (by decide) (by decide)
  rw [h.1]
  decide

/-- Claim C8 (amended): during `setup_scan` / `setup_continuous_scans`,
the driver's `analog_input_setup` is invoked, and a monitor task stored,
exactly for the registered DAQs whose rebuilt `monitor` list is non-empty;
a DAQ with an empty monitor list is never armed and its `monitor_task`
slot is left exactly as it was before the call (in particular a handle
stored by an earlier scan persists). -/
theorem setup_scan_arms_only_nonempty (new_task : String → ℕ) (daq_names : List String)
    (daqs : String → DaqBinding) (detectors : List Device) (d : String)
    (hd : d ∈ daq_names) :
    (((connect_monitor_devices_to_daq daq_names daqs detectors) d).monitor = [] →
       setup_scan_daqs new_task daq_names daqs detectors d =
         (connect_monitor_devices_to_daq daq_names daqs detectors) d ∧
       (setup_scan_daqs new_task daq_names daqs detectors d).monitor_task =
         (daqs d).monitor_task ∧
       d ∉ armed_daq_names daq_names (connect_monitor_devices_to_daq daq_names daqs detectors)) ∧
    (((connect_monitor_devices_to_daq daq_names daqs detectors) d).monitor ≠ [] →
       (setup_scan_daqs new_task daq_names daqs detectors d).monitor_task =
         some (new_task d) ∧
       d ∈ armed_daq_names daq_names (connect_monitor_devices_to_daq daq_names daqs detectors)) := by
  constructor
  · intro hempty
    have harm : setup_scan_daqs new_task daq_names daqs detectors d =
        (connect_monitor_devices_to_daq daq_names daqs detectors) d := by
      rw [setup_scan_daqs, arm_monitor_daqs]
      simp [hempty]
    refine ⟨harm, ?_, ?_⟩
    · rw [harm]
      obtain ⟨-, h2⟩ := foldl_append_monitor_spec detectors (clear_monitors daq_names daqs) d
      rw [connect_monitor_devices_to_daq, h2, clear_monitors]
      simp [hd]
    · rw [armed_daq_names]
      simp [hempty]
  · intro hne
    constructor
    · rw [setup_scan_daqs, arm_monitor_daqs]
      simp [hd, hne]
    · rw [armed_daq_names]
      simp [List.mem_filter, hd, hne]

/-- Witness for claim C8 (amended): with one detector wired to `daqA`, the
setup arms `daqA` and stores the driver's task handle. -/
theorem setup_scan_arms_only_nonempty_witness :
    (setup_scan_daqs (fun _ => 7) ["daqA"] (fun _ => DaqBinding.mk [] none)
        [Device.mk "pd1" "daqA" none] "daqA").monitor_task = some 7 ∧
    "daqA" ∈ armed_daq_names ["daqA"]
      (connect_monitor_devices_to_daq ["daqA"] (fun _ => DaqBinding.mk [] none)
        [Device.mk "pd1" "daqA" none]) := by
  have h := setup_scan_arms_only_nonempty (fun _ => 7) ["daqA"]
    (fun _ => DaqBinding.mk [] none) [Device.mk "pd1" "daqA" none] "daqA" (by decide)
  exact h.2 (by decide)

/-- Counterexample for claim C8 as stated: a first scan with a detector on
`daqA` stores task 1; a second scan with no detectors leaves `daqA`'s
monitor list empty yet its binding still holds the stale `monitor_task`
entry — the binding is not "left without a monitor_task entry". -/
theorem setup_scan_stale_task_counterexample :
    ((setup_scan_daqs (fun _ => 2) ["daqA"]
        (setup_scan_daqs (fun _ => 1) ["daqA"] (fun _ => DaqBinding.mk [] none)
          [Device.mk "pd1" "daqA" none]) []) "daqA").monitor = [] ∧
    ((setup_scan_daqs (fun _ => 2) ["daqA"]
        (setup_scan_daqs (fun _ => 1) ["daqA"] (fun _ => DaqBinding.mk [] none)
          [Device.mk "pd1" "daqA" none]) []) "daqA").monitor_task = some 1 := by
  decide

/-- Replaying a concatenated trace is replaying the pieces in order. -/
theorem shutter_after_append (port : String) (s : Bool) (l1 l2 : List Event) :
    shutter_after port s (l1 ++ l2) = shutter_after port (shutter_after port s l1) l2 := by
  simp [shutter_after, List.foldl_append]

/-- A `digital_output` on another port leaves the shutter level alone; on
the shutter port it overwrites it. -/
theorem shutter_after_cons_digout (port p : String) (l s : Bool) (t : List Event) :
    shutter_after port s (Event.digital_output p l :: t) =
      shutter_after port (if p = port then l else s) t := rfl

/-- `execute_sweep` does not touch the shutter line. -/
theorem shutter_after_cons_execute (port : String) (s : Bool) (t : List Event) :
    shutter_after port s (Event.execute_sweep :: t) = shutter_after port s t := rfl

/-- Polling `sweep_condition` does not touch the shutter line. -/
theorem shutter_after_replicate_poll (port : String) (n : ℕ) :
    ∀ (s : Bool) (t : List Event),
      shutter_after port s (List.replicate n Event.poll_sweep ++ t) =
        shutter_after port s t := by
  induction n with
  | zero => intro s t; rfl
  | succ k ih =>
    intro s t
    rw [List.replicate_succ, List.cons_append]
    exact ih s t

/-- Claim C1 (amended): every `do_line_scan` call during which no driver
call raises (the call returns `True`) terminates with the shutter digital
line set to `False`, whatever the initial shutter level and however many
sweep-condition polls ran. -/
theorem do_line_scan_closes_shutter (env : LineScanEnv) (port : String) (s0 : Bool)
    (h : (do_line_scan env port).2 = true) :
    shutter_after port s0 (do_line_scan env port).1 = false := by
  obtain ⟨c1, o, e, p, n, c2⟩ := env
  cases c1 <;> cases o <;> cases e <;> cases p <;> cases c2 <;>
    simp_all [do_line_scan, shutter_after_cons_digout, shutter_after_cons_execute,
      shutter_after_replicate_poll, shutter_after]

/-- Witness for claim C1 (amended): a fully successful line scan with two
polls, starting with the shutter open, ends with it closed. -/
theorem do_line_scan_closes_shutter_witness :
    shutter_after "shutter_port" true
      (do_line_scan ⟨true, true, true, true, 2, true⟩ "shutter_port").1 = false :=
  do_line_scan_closes_shutter ⟨true, true, true, true, 2, true⟩ "shutter_port" true (by decide)

/-- Counterexample for claim C1 as stated: when `execute_sweep` raises
(after the shutter was opened), `do_line_scan` propagates the exception —
the method has no handler — and terminates with the shutter line still
`True` (open), not `False`. -/
theorem do_line_scan_counterexample :
    (do_line_scan ⟨true, true, false, true, 0, true⟩ "shutter_port").2 = false ∧
    shutter_after "shutter_port" false
      (do_line_scan ⟨true, true, false, true, 0, true⟩ "shutter_port").1 = true := by
  decide

/-- Every event the stop loop emits is a `stop_task`/`clear_task` on a task
the driver reported not complete. -/
theorem stop_daq_tasks_events (complete : ℕ → Bool) :
    ∀ (bs : List DaqBinding) (r : List Event),
      stop_daq_tasks complete bs = some r →
      ∀ e ∈ r, ∃ t, (e = Event.stop_task t ∨ e = Event.clear_task t) ∧ complete t = false := by
  intro bs
  induction bs with
  | nil =>
    intro r hr e he
    simp only [stop_daq_tasks, Option.some.injEq] at hr
    subst hr
    simp at he
  | cons b rest ih =>
    intro r hr e he
    simp only [stop_daq_tasks] at hr
    by_cases hm : b.monitor.isEmpty
    · rw [if_pos hm] at hr
      exact ih r hr e he
    · rw [if_neg hm] at hr
      cases ht : b.monitor_task with
      | none => rw [ht] at hr; cases hr
      | some t =>
        rw [ht] at hr
        cases hrest : stop_daq_tasks complete rest with
        | none => rw [hrest] at hr; cases hr
        | some r2 =>
          rw [hrest, Option.some.injEq] at hr
          subst hr
          rcases List.mem_append.mp he with h1 | h2
          · by_cases hc : complete t
            · rw [if_pos hc] at h1; simp at h1
            · rw [if_neg hc] at h1
              simp only [List.mem_cons, List.not_mem_nil, or_false] at h1
              rcases h1 with h1 | h1
              · exact ⟨t, Or.inl h1, by simpa using hc⟩
              · exact ⟨t, Or.inr h1, by simpa using hc⟩
          · exact ih r2 hrest e h2

/-- The stop loop stops and clears the task of every binding with a
non-empty monitor list whose task the driver reported not complete. -/
theorem stop_daq_tasks_mem (complete : ℕ → Bool) :
    ∀ (bs : List DaqBinding) (r : List Event),
      stop_daq_tasks complete bs = some r →
      ∀ b ∈ bs, b.monitor ≠ [] → ∀ t, b.monitor_task = some t → complete t = false →
        Event.stop_task t ∈ r ∧ Event.clear_task t ∈ r := by
  intro bs
  induction bs with
  | nil => intro r hr b hb; simp at hb
  | cons b0 rest ih =>
    intro r hr b hb hmon t ht hc
    simp only [stop_daq_tasks] at hr
    rcases List.mem_cons.mp hb with hb0 | hbr
    · subst hb0
      have hm : ¬ b.monitor.isEmpty := by simpa [List.isEmpty_iff] using hmon
      rw [if_neg hm, ht] at hr
      cases hrest : stop_daq_tasks complete rest with
      | none => rw [hrest] at hr; cases hr
      | some r2 =>
        rw [hrest, Option.some.injEq] at hr
        subst hr
        rw [if_neg (by simp [hc])]
        constructor
        · exact List.mem_append_left _ (by simp)
        · exact List.mem_append_left _ (by simp)
    · by_cases hm : b0.monitor.isEmpty
      · rw [if_pos hm] at hr
        exact ih r hr b hbr hmon t ht hc
      · rw [if_neg hm] at hr
        cases ht0 : b0.monitor_task with
        | none => rw [ht0] at hr; cases hr
        | some t0 =>
          rw [ht0] at hr
          cases hrest : stop_daq_tasks complete rest with
          | none => rw [hrest] at hr; cases hr
          | some r2 =>
            rw [hrest, Option.some.injEq] at hr
            subst hr
            have := ih r2 hrest b hbr hmon t ht hc
            exact ⟨List.mem_append_right _ this.1, List.mem_append_right _ this.2⟩

/-- A trace made only of task stop/clear events never moves the shutter. -/
theorem shutter_after_task_events (port : String) :
    ∀ (r : List Event) (s : Bool),
      (∀ e ∈ r, ∃ t, e = Event.stop_task t ∨ e = Event.clear_task t) →
      shutter_after port s r = s := by
  intro r
  induction r with
  | nil => intro s _; rfl
  | cons e rest ih =>
    intro s hall
    obtain ⟨t, ht⟩ := hall e (List.mem_cons_self e rest)
    have hrest : ∀ e2 ∈ rest, ∃ t2, e2 = Event.stop_task t2 ∨ e2 = Event.clear_task t2 :=
      fun e2 he2 => hall e2 (List.mem_cons_of_mem e he2)
    rcases ht with ht | ht <;> subst ht <;> exact ih s hrest

/-- Claim C10: whenever `stop_scan` completes, its driver-call trace stops
the laser sweep first (`pause_sweep`, `stop_sweep`), sets the shutter
digital line to `False` third — before any DAQ task is stopped or cleared,
since everything after that point is a `stop_task`/`clear_task` event —
and leaves the shutter closed whatever level it started at. -/
theorem stop_scan_order (port : String) (complete : ℕ → Bool)
    (bs : List DaqBinding) (trace : List Event) (s0 : Bool)
    (h : stop_scan port complete bs = some trace) :
    trace.take 3 = [Event.pause_sweep, Event.stop_sweep, Event.digital_output port false] ∧
    (∀ e ∈ trace.drop 3, ∃ t, e = Event.stop_task t ∨ e = Event.clear_task t) ∧
    shutter_after port s0 trace = false := by
  rw [stop_scan] at h
  cases hr : stop_daq_tasks complete bs with
  | none => rw [hr] at h; cases h
  | some r =>
    rw [hr] at h
    simp only [Option.map_some', Option.some.injEq] at h
    subst h
    have hev := stop_daq_tasks_events complete bs r hr
    have hev2 : ∀ e ∈ r, ∃ t, e = Event.stop_task t ∨ e = Event.clear_task t :=
      fun e he => ⟨(hev e he).choose, (hev e he).choose_spec.1⟩
    refine ⟨rfl, hev2, ?_⟩
    rw [show shutter_after port s0
        ([Event.pause_sweep, Event.stop_sweep, Event.digital_output port false] ++ r) =
      shutter_after port (if port = port then false else s0) r from rfl]
    rw [if_pos rfl]
    exact shutter_after_task_events port r false hev2

/-- Witness for claim C10: one DAQ with an incomplete task 3 — the trace
opens with laser stop then shutter close, and the replayed shutter level
ends `False` even starting from open. -/
theorem stop_scan_order_witness :
    ([Event.pause_sweep, Event.stop_sweep, Event.digital_output "shutter_port" false,
        Event.stop_task 3, Event.clear_task 3] : List Event).take 3 =
      [Event.pause_sweep, Event.stop_sweep, Event.digital_output "shutter_port" false] ∧
    shutter_after "shutter_port" true
      [Event.pause_sweep, Event.stop_sweep, Event.digital_output "shutter_port" false,
        Event.stop_task 3, Event.clear_task 3] = false := by
  have h := stop_scan_order "shutter_port" (fun _ => false)
    [DaqBinding.mk [Device.mk "pd1" "daqA" none] (some 3)]
    [Event.pause_sweep, Event.stop_sweep, Event.digital_output "shutter_port" false,
      Event.stop_task 3, Event.clear_task 3] true (by decide)
  exact ⟨h.1, h.2.2⟩

/-- Claim C6 (amended): whenever `stop_continuous_scans` completes, every
DAQ binding with a non-empty monitor list whose task the driver reported
not complete has that task stopped and cleared. -/
theorem stop_continuous_scans_clears_incomplete (complete : ℕ → Bool)
    (bs : List DaqBinding) (trace : List Event)
    (h : stop_continuous_scans complete bs = some trace) :
    ∀ b ∈ bs, b.monitor ≠ [] → ∀ t, b.monitor_task = some t → complete t = false →
      Event.stop_task t ∈ trace ∧ Event.clear_task t ∈ trace := by
  rw [stop_continuous_scans] at h
  cases hr : stop_daq_tasks complete bs with
  | none => rw [hr] at h; cases h
  | some r =>
    rw [hr] at h
    simp only [Option.map_some', Option.some.injEq] at h
    subst h
    intro b hb hmon t ht hc
    have := stop_daq_tasks_mem complete bs r hr b hb hmon t ht hc
    exact ⟨List.mem_append_right _ this.1, List.mem_append_right _ this.2⟩

/-- Witness for claim C6 (amended): a monitored DAQ with incomplete task 5
gets `stop_task 5` and `clear_task 5` in the stop trace. -/
theorem stop_continuous_scans_clears_incomplete_witness :
    Event.stop_task 5 ∈ ([Event.pause_sweep, Event.stop_sweep,
      Event.stop_task 5, Event.clear_task 5] : List Event) ∧
    Event.clear_task 5 ∈ ([Event.pause_sweep, Event.stop_sweep,
      Event.stop_task 5, Event.clear_task 5] : List Event) :=
  stop_continuous_scans_clears_incomplete (fun _ => false)
    [DaqBinding.mk [Device.mk "pd1" "daqA" none] (some 5)]
    [Event.pause_sweep, Event.stop_sweep, Event.stop_task 5, Event.clear_task 5]
    (by decide)
    (DaqBinding.mk [Device.mk "pd1" "daqA" none] (some 5)) (by decide) (by decide)
    5 rfl rfl

/-- Counterexample for claim C6 as stated: a DAQ binding with a live task
handle whose driver reports the task complete is left untouched —
`stop_continuous_scans` returns without emitting any `stop_task` or
`clear_task` for it, so the binding still holds a non-null, non-cleared
handle. -/
theorem stop_continuous_scans_counterexample :
    stop_continuous_scans (fun _ => true)
      [DaqBinding.mk [Device.mk "pd1" "daqA" none] (some 0)] =
      some [Event.pause_sweep, Event.stop_sweep] ∧
    Event.stop_task 0 ∉ ([Event.pause_sweep, Event.stop_sweep] : List Event) ∧
    Event.clear_task 0 ∉ ([Event.pause_sweep, Event.stop_sweep] : List Event) ∧
    (DaqBinding.mk [Device.mk "pd1" "daqA" none] (some 0)).monitor_task = some 0 := by
  decide

/-- Claim C2, behavior of the code at the failing input: with 2 monitored
devices and the driver returning `vv = 3` with a 7-sample flat buffer —
7 not divisible by 2 — `read_scans` does not fail: it silently truncates
the buffer to `vv * k = 6` samples and returns two length-3 sequences,
where the claim (and §4.2 of the spec) requires an `AcquisitionReadError`. -/
theorem read_scans_truncates :
    (7 : ℕ) % 2 ≠ 0 ∧
    read_scans_daq [Device.mk "pd1" "daqA" none, Device.mk "pd2" "daqA" none] 3
      [1, 2, 3, 4, 5, 6, 7] =
      some [("pd1", [1, 2, 3]), ("pd2", [4, 5, 6])] := by
  decide

/-- Claim C3: for every valid non-time axis range (positive step no larger
than the span), the number of axis values visited by `do_scan`'s outer
loop is the computed axis point count `floor((stop - start) / step)` plus
one — the count `setup_scan` computes, with the extra point `do_scan` adds
before `np.linspace` — and the first and last visited values are exactly
`start` and `stop`. -/
theorem do_scan_inclusive_endpoints (start stop step : ℚ)
    (h1 : 0 < step) (h2 : step ≤ stop - start) :
    (do_scan_axis_values start stop step).length = (⌊(stop - start) / step⌋).toNat + 1 ∧
    setup_scan_num_points_dev start stop step = ⌊(stop - start) / step⌋ ∧
    (do_scan_axis_values start stop step).head? = some start ∧
    (do_scan_axis_values start stop step).getLast? = some stop := by
  have hr1 : 1 ≤ (stop - start) / step := by
    rw [le_div_iff₀ h1]; linarith
  have hr0 : (0:ℚ) ≤ (stop - start) / step := by linarith
  have hr01 : (0:ℚ) ≤ (stop - start) / step + 1 := by linarith
  have hfl1 : 1 ≤ ⌊(stop - start) / step⌋ := Int.le_floor.mpr (by exact_mod_cast hr1)
  have hnum : do_scan_num_points_dev start stop step = (⌊(stop - start) / step⌋).toNat + 1 := by
    rw [do_scan_num_points_dev, pytrunc_eq_floor hr01, Int.floor_add_one]
    omega
  have hk1 : 1 ≤ (⌊(stop - start) / step⌋).toNat := by omega
  refine ⟨?_, ?_, ?_, ?_⟩
  · rw [do_scan_axis_values, hnum, linspace]
    simp
  · rw [setup_scan_num_points_dev, pytrunc_eq_floor hr0]
  · rw [do_scan_axis_values, hnum, linspace, List.range_succ_eq_map]
    simp
  · rw [do_scan_axis_values, hnum, linspace, List.range_succ, List.map_append]
    simp only [List.map_cons, List.map_nil, List.getLast?_concat]
    have hcast : (((⌊(stop - start) / step⌋).toNat + 1 : ℕ) : ℚ) - 1 =
        ((⌊(stop - start) / step⌋).toNat : ℚ) := by
      push_cast; ring
    have hkQ : ((⌊(stop - start) / step⌋).toNat : ℚ) ≠ 0 := by
      have h : (0:ℚ) < ((⌊(stop - start) / step⌋).toNat : ℚ) := by exact_mod_cast hk1
      exact ne_of_gt h
    rw [hcast, mul_comm, mul_div_assoc, div_self hkQ, mul_one]
    congr 1
    ring

/-- Witness for claim C3: the spec's axis example `start = 0 V`,
`stop = 10 V`, `step = 2 V` — 5 computed points, 6 visited, first 0 and
last exactly 10. -/
theorem do_scan_inclusive_endpoints_witness :
    (do_scan_axis_values 0 10 2).length = (⌊((10:ℚ) - 0) / 2⌋).toNat + 1 ∧
    setup_scan_num_points_dev 0 10 2 = ⌊((10:ℚ) - 0) / 2⌋ ∧
    (do_scan_axis_values 0 10 2).head? = some 0 ∧
    (do_scan_axis_values 0 10 2).getLast? = some 10 :=
  do_scan_inclusive_endpoints 0 10 2 (by norm_num) (by norm_num)
